import Mathlib

/-!
Verification of the stress-classification rule engines.

The development shallowly embeds three pieces of the repository:

* `src/sample.py` — the pure forward-chaining resolver (`forward_chain`,
  `classify_stress`, `evaluate`) over the explicit IF–THEN rule list `RULES`.
* `src/project.py` — the priority rule evaluator (`Student`, `RuleEngine`,
  the seven registered rules) and the reconciliation step of the `/assess`
  route, together with a model of the CLIPS rule base
  (`setup_knowledge_base` / `evaluate_responses`).  The CLIPS inference
  engine itself is an external library; its run-to-fixpoint semantics is
  modelled from the specification (§4.2): repeatedly scan all rules in
  declaration order, firing each rule at most once (refraction) when its
  conditions hold against the current store, until a full pass changes
  nothing.
* `src/stress_expert_web/app.py` — its four range-classification rules use
  the same numeric guards as `project.py`'s `rule-*-overall` rules, which
  are therefore shared definitions here.
-/

namespace Stress

/-! ## sample.py: forward-chaining resolver -/

/-- A fact-derivation rule of `sample.py`: list of condition facts and one
conclusion fact (`Rule = Tuple[List[str], str]`). -/
abbrev SRule := List String × String

/-- The rule base `RULES` of `sample.py`, verbatim. -/
def RULES : List SRule := [
  (["poor_sleep", "irritability", "deadline_pressure"], "stress_high"),
  (["persistent_fatigue", "difficulty_concentrating"], "stress_high"),
  (["skip_meals", "racing_thoughts"], "stress_high"),
  (["procrastination", "deadline_pressure"], "stress_moderate"),
  (["social_withdrawal", "irritability"], "stress_moderate"),
  (["minor_worry_only"], "stress_low"),
  (["stress_high"], "rec_breaks"),
  (["stress_high"], "rec_counselor"),
  (["stress_high"], "rec_sleep"),
  (["stress_high"], "rec_time_block"),
  (["stress_moderate"], "rec_plan"),
  (["stress_moderate"], "rec_exercise"),
  (["stress_moderate"], "rec_peer"),
  (["stress_low"], "rec_monitor")]

/-- The explanation/advice table `EXPLANATIONS` of `sample.py` (advice text
transliterated; only identity of entries matters for the claims). -/
def EXPLANATIONS : List (String × String) := [
  ("stress_high", "expl_stress_high"),
  ("stress_moderate", "expl_stress_moderate"),
  ("stress_low", "expl_stress_low"),
  ("rec_breaks", "expl_rec_breaks"),
  ("rec_counselor", "expl_rec_counselor"),
  ("rec_sleep", "expl_rec_sleep"),
  ("rec_time_block", "expl_rec_time_block"),
  ("rec_plan", "expl_rec_plan"),
  ("rec_exercise", "expl_rec_exercise"),
  ("rec_peer", "expl_rec_peer"),
  ("rec_monitor", "expl_rec_monitor")]

/-- One rule application inside the scan of `forward_chain`:
`if conclusion in facts: continue; if all(cond in facts): facts.add(conclusion)`.
The fact store is a set (`facts: Set[str]`), embedded as `Finset String`. -/
def stepOnce (facts : Finset String) (r : SRule) : Finset String :=
  if r.2 ∈ facts then facts
  else if r.1.all (fun c => c ∈ facts) then insert r.2 facts
  else facts

/-- One full `for conditions, conclusion in RULES` scan of `forward_chain`;
the store is updated in place during the scan, hence the left fold. -/
def passRules (facts : Finset String) : Finset String :=
  RULES.foldl stepOnce facts

/-- The `while changed` loop of `forward_chain`: repeat full scans until a
scan adds nothing.  Since a scan only ever inserts facts, "no fact added"
is the same as the store being unchanged.  The loop is embedded with
explicit fuel; `closureF` supplies enough fuel for the loop to reach its
fixed point (proved in `passRules_closureF`). -/
def chase : Nat → Finset String → Finset String
  | 0, facts => facts
  | n + 1, facts =>
      let facts' := passRules facts
      if facts' = facts then facts else chase n facts'

/-- `forward_chain` on an initial fact set: run the scan loop to its fixed
point.  `RULES.length + 1` passes always suffice (each productive pass adds
at least one of the at most `RULES.length` conclusions). -/
def closureF (facts : Finset String) : Finset String :=
  chase (RULES.length + 1) facts

/-- `forward_chain(initial_facts)`: the Python function receives a list and
forms `set(initial_facts)` first. -/
def forward_chain (initial_facts : List String) : Finset String :=
  closureF initial_facts.toFinset

/-- `classify_stress` of `sample.py`. -/
def classify_stress (facts : Finset String) : String :=
  if "stress_high" ∈ facts then "high"
  else if "stress_moderate" ∈ facts then "moderate"
  else if "stress_low" ∈ facts then "low"
  else "undetermined"

/-- Result dictionary of `sample.py`'s `evaluate`. -/
structure SampleResult where
  stress_level : String
  inferred_facts : List String
  recommendations : List String
  deriving DecidableEq, Repr

/-- The comprehension `[fact for fact in inferred if fact.startswith("rec_")]`
in `evaluate` iterates a Python set.  Python guarantees only that the
iteration enumerates exactly the set's elements, once each; the order is
implementation-defined (in CPython it depends on string hashes and on the
insertion history of the table, so two sets with equal contents need not
iterate in the same order).  An admissible iteration order of the fact
set is therefore any duplicate-free enumeration of exactly its
elements. -/
def IsSetIterOrder (s : Finset String) (order : List String) : Prop :=
  order.Nodup ∧ order.toFinset = s

/-- `evaluate` of `sample.py`, with the implementation-defined iteration
order of the inferred fact set (see `IsSetIterOrder`) as an explicit
parameter `order`: the recommendations are collected by scanning the set
in that order, while `stress_level` and `inferred_facts` (which is
`sorted(inferred)`) do not depend on it.  `fact.startswith("rec_")` is
embedded as the character-level prefix test. -/
def evaluateIter (order : List String) (symptoms : List String) :
    SampleResult :=
  let inferred := forward_chain symptoms
  let sortedFacts := inferred.sort (· ≤ ·)
  let recs := order.filter (fun f => ("rec_").toList.isPrefixOf f.toList)
  { stress_level := classify_stress inferred,
    inferred_facts := sortedFacts,
    recommendations := recs.map (fun rec => ((EXPLANATIONS.lookup rec).getD rec)) }

/-- The set of all rule conclusions; a scan can only ever add these. -/
def conclusionsF : Finset String := (RULES.map (·.2)).toFinset


/-! ## project.py: Student and the priority RuleEngine -/

/-- The twenty typed attribute fields of `Student.__init__`
(`responses.get(key, 1)` each). -/
structure StudentAttrs where
  anxiety_level : Int
  self_esteem : Int
  mental_health_history : Int
  depression : Int
  headache : Int
  blood_pressure : Int
  sleep_quality : Int
  breathing_problem : Int
  noise_level : Int
  living_conditions : Int
  safety : Int
  basic_needs : Int
  academic_performance : Int
  study_load : Int
  teacher_student_relationship : Int
  future_career_concerns : Int
  social_support : Int
  peer_pressure : Int
  extracurricular_activities : Int
  bullying : Int

/-- `student.section_reasons`: the five named explanation buckets
("Mental State", "Physical Symptoms", "Environmental Factors",
"Academic Pressure", "Social Support"), each a list of strings. -/
structure SectionReasons where
  mentalState : List String
  physicalSymptoms : List String
  environmentalFactors : List String
  academicPressure : List String
  socialSupport : List String
  deriving DecidableEq

/-- The `Student` object: name, raw response mapping (a dict, embedded as
an association list), the twenty defaulted attribute fields, and the
mutable outputs `final_stress`, `reasons`, `section_reasons`. -/
structure Student where
  name : String
  responses : List (String × Int)
  attrs : StudentAttrs
  final_stress : String
  reasons : List String
  section_reasons : SectionReasons

/-- `Student.__init__(name, responses)`. -/
def mkStudent (name : String) (responses : List (String × Int)) : Student where
  name := name
  responses := responses
  attrs :=
    { anxiety_level := (responses.lookup "anxiety_level").getD 1,
      self_esteem := (responses.lookup "self_esteem").getD 1,
      mental_health_history := (responses.lookup "mental_health_history").getD 1,
      depression := (responses.lookup "depression").getD 1,
      headache := (responses.lookup "headache").getD 1,
      blood_pressure := (responses.lookup "blood_pressure").getD 1,
      sleep_quality := (responses.lookup "sleep_quality").getD 1,
      breathing_problem := (responses.lookup "breathing_problem").getD 1,
      noise_level := (responses.lookup "noise_level").getD 1,
      living_conditions := (responses.lookup "living_conditions").getD 1,
      safety := (responses.lookup "safety").getD 1,
      basic_needs := (responses.lookup "basic_needs").getD 1,
      academic_performance := (responses.lookup "academic_performance").getD 1,
      study_load := (responses.lookup "study_load").getD 1,
      teacher_student_relationship :=
        (responses.lookup "teacher_student_relationship").getD 1,
      future_career_concerns := (responses.lookup "future_career_concerns").getD 1,
      social_support := (responses.lookup "social_support").getD 1,
      peer_pressure := (responses.lookup "peer_pressure").getD 1,
      extracurricular_activities :=
        (responses.lookup "extracurricular_activities").getD 1,
      bullying := (responses.lookup "bullying").getD 1 }
  final_stress := "Low"
  reasons := []
  section_reasons :=
    { mentalState := [], physicalSymptoms := [], environmentalFactors := [],
      academicPressure := [], socialSupport := [] }

/-- `sum(s.responses.values())`. -/
def sumValues (responses : List (String × Int)) : Int :=
  (responses.map (·.2)).sum

/-- The classification computed by `score_action` from the raw response
total: `>80 → Very High, >60 → High, >40 → Moderate, else Low`. -/
def scoreStressLabel (total : Int) : String :=
  if total > 80 then "Very High"
  else if total > 60 then "High"
  else if total > 40 then "Moderate"
  else "Low"

/-- A rule registered with `RuleEngine.add_rule(condition, action, priority,
name)`.  An action mutates the student and returns its display string. -/
structure ERule where
  cond : Student → Bool
  act : Student → Student × String
  priority : Nat
  name : String

def critical_mental_health_rule (s : Student) : Bool :=
  (s.attrs.anxiety_level ≥ 4 && s.attrs.depression ≥ 4) ||
    s.attrs.mental_health_history ≥ 4

def critical_mental_health_action (s : Student) : Student × String :=
  ({ s with section_reasons :=
      { s.section_reasons with mentalState :=
          s.section_reasons.mentalState ++ ["High anxiety and depression."] } },
   "🔴 Critical Mental Health Risk detected for " ++ s.name ++ ".")

def severe_physical_rule (s : Student) : Bool :=
  s.attrs.headache ≥ 4 && s.attrs.sleep_quality ≥ 4 &&
    s.attrs.breathing_problem ≥ 4

def severe_physical_action (s : Student) : Student × String :=
  ({ s with section_reasons :=
      { s.section_reasons with physicalSymptoms :=
          s.section_reasons.physicalSymptoms ++
            ["Severe physical symptoms (headache + sleep + breathing)."] } },
   "🔴 Severe physical stress signals detected for " ++ s.name ++ ".")

def bullying_rule (s : Student) : Bool :=
  s.attrs.bullying ≥ 4

def bullying_action (s : Student) : Student × String :=
  ({ s with section_reasons :=
      { s.section_reasons with socialSupport :=
          s.section_reasons.socialSupport ++ ["Bullying experience detected."] } },
   "🔴 Bullying concern identified for " ++ s.name ++ ".")

def academic_pressure_rule (s : Student) : Bool :=
  s.attrs.study_load ≥ 4 && s.attrs.future_career_concerns ≥ 4

def academic_pressure_action (s : Student) : Student × String :=
  ({ s with section_reasons :=
      { s.section_reasons with academicPressure :=
          s.section_reasons.academicPressure ++
            ["Heavy study load and career concerns."] } },
   "🟡 Academic stress detected for " ++ s.name ++ ".")

def environment_rule (s : Student) : Bool :=
  s.attrs.noise_level ≥ 4 || s.attrs.basic_needs ≥ 4 ||
    s.attrs.living_conditions ≥ 4

def environment_action (s : Student) : Student × String :=
  ({ s with section_reasons :=
      { s.section_reasons with environmentalFactors :=
          s.section_reasons.environmentalFactors ++
            ["Poor environment or unmet basic needs."] } },
   "🟡 Environmental stress detected for " ++ s.name ++ ".")

def social_rule (s : Student) : Bool :=
  s.attrs.social_support ≤ 2 && s.attrs.peer_pressure ≥ 4

def social_action (s : Student) : Student × String :=
  ({ s with section_reasons :=
      { s.section_reasons with socialSupport :=
          s.section_reasons.socialSupport ++
            ["Low support + high peer pressure."] } },
   "🟡 Social support issues detected for " ++ s.name ++ ".")

def score_rule (_ : Student) : Bool :=
  true

def score_action (s : Student) : Student × String :=
  let total := sumValues s.responses
  let stress := scoreStressLabel total
  ({ s with final_stress := stress },
   "📊 Overall Stress Level for " ++ s.name ++ ": " ++ stress)

def criticalMentalStateRule : ERule :=
  ⟨critical_mental_health_rule, critical_mental_health_action, 100,
    "Critical Mental State"⟩

def severePhysicalSymptomsRule : ERule :=
  ⟨severe_physical_rule, severe_physical_action, 90,
    "Severe Physical Symptoms"⟩

def bullyingCrisisRule : ERule :=
  ⟨bullying_rule, bullying_action, 85, "Bullying Crisis"⟩

def academicPressureRule : ERule :=
  ⟨academic_pressure_rule, academic_pressure_action, 70, "Academic Pressure"⟩

def environmentalStressRule : ERule :=
  ⟨environment_rule, environment_action, 60, "Environmental Stress"⟩

def socialSupportIssueRule : ERule :=
  ⟨social_rule, social_action, 55, "Social Support Issue"⟩

def overallScoreRule : ERule :=
  ⟨score_rule, score_action, 10, "Overall Score"⟩

/-- The seven rules in registration (`add_rule`) order. -/
def engineRules : List ERule := [
  criticalMentalStateRule, severePhysicalSymptomsRule, bullyingCrisisRule,
  academicPressureRule, environmentalStressRule, socialSupportIssueRule,
  overallScoreRule]

/-- Stable insertion of a rule into a descending-priority sorted list: the
inserted rule comes from earlier in the registration order, so it goes in
front of rules of equal priority. -/
def insertRuleDesc (r : ERule) : List ERule → List ERule
  | [] => [r]
  | x :: xs =>
      if x.priority > r.priority then x :: insertRuleDesc r xs
      else r :: x :: xs

/-- `sorted(self.rules, key=lambda x: x[2], reverse=True)` — Python's sort
is stable, so ties keep registration order. -/
def sortRulesDesc : List ERule → List ERule
  | [] => []
  | x :: xs => insertRuleDesc x (sortRulesDesc xs)

/-- Accumulator of `RuleEngine.run`: the (mutated) student, the collected
action outputs `results`, and the fired-rule names `triggered_rules`. -/
structure RunState where
  student : Student
  results : List String
  triggered : List String

/-- One iteration of the `for condition, action, priority, name` loop of
`RuleEngine.run`: evaluate the condition on the current student, execute
the action, collect its truthy output and record the rule name. -/
def runStep (acc : RunState) (r : ERule) : RunState :=
  if r.cond acc.student then
    let out := r.act acc.student
    { student := out.1,
      results := if out.2 = "" then acc.results else acc.results ++ [out.2],
      triggered := acc.triggered ++ [r.name] }
  else acc

/-- `RuleEngine.run(student)` (with `self.triggered_rules = []` reset at
entry): scan the priority-sorted rules once, firing every matching rule. -/
def runEngine (s : Student) : RunState :=
  (sortRulesDesc engineRules).foldl runStep
    { student := s, results := [], triggered := [] }

/-! ## project.py: the CLIPS knowledge base

The `defrule`s of `setup_knowledge_base` are data in the source; the CLIPS
engine that runs them is an external library.  Modelled from the spec
(§4.2): the run repeatedly scans all rules in declaration order, a rule
fires at most once (refraction), a negative condition is evaluated against
the current store at scan time, and the run stops when a full scan fires
nothing.  All `symptom` facts are asserted with `(value 1)`, so a symptom
pattern `(value ?v&:(>= ?v 1))` is simply presence of the name; `metric`
facts are embedded as optional rationals (CLIPS floats are exact decimal
literals here).  Asserting a metric that is already present keeps the
first value (no metric is ever re-asserted with a different value during a
run of this rule base). -/

/-- An `es_result` fact: `(level, rule, explanation)` slots. -/
structure EsResult where
  level : String
  rule : String
  explanation : String
  deriving DecidableEq, Repr

/-- The CLIPS working memory for one evaluation: symptom-fact names in
assertion order, the `total_score` / `max_score` / `overall` metrics, the
asserted `es_result` facts in assertion order, the `overall_set` marker
facts, and the names of rules that have already fired (refraction). -/
structure CState where
  symptoms : List String
  totalScore : Option ℚ
  maxScore : Option ℚ
  overall : Option ℚ
  results : List EsResult
  marks : List Bool
  fired : List String
  deriving DecidableEq, Repr

/-- Presence of a symptom fact with the given name. -/
def hasSymptom (st : CState) (n : String) : Bool :=
  st.symptoms.contains n

/-- Assert a symptom fact (`(assert (symptom (name ...) (value 1)))`);
asserting an existing fact is a no-op in CLIPS. -/
def addSymptom (st : CState) (n : String) : CState :=
  if st.symptoms.contains n then st else { st with symptoms := st.symptoms ++ [n] }

/-- Assert an `es_result` fact. -/
def addResult (st : CState) (r : EsResult) : CState :=
  { st with results := st.results ++ [r] }

/-- Assert `(metric (name "overall") (value v))`; first writer wins. -/
def setOverall (st : CState) (v : ℚ) : CState :=
  match st.overall with
  | none => { st with overall := some v }
  | some _ => st

/-- A modelled CLIPS rule: name, left-hand side as a predicate over the
working memory, right-hand side as assertions. -/
structure CRule where
  name : String
  guard : CState → Bool
  effect : CState → CState

/-- `(test (>= ?v 4.0))` of `rule-very-high-overall` (same guard in
`app.py`'s `very-high-stress`). -/
def veryHighOverallTest (v : ℚ) : Bool :=
  v ≥ 4.0

/-- `(test (and (>= ?v 3.0) (< ?v 4.0)))` of `rule-high-overall` (same
guard in `app.py`'s `high-stress`). -/
def highOverallTest (v : ℚ) : Bool :=
  v ≥ 3.0 && v < 4.0

/-- `(test (and (>= ?v 2.0) (< ?v 3.0)))` of `rule-moderate-overall` (same
guard in `app.py`'s `moderate-stress`). -/
def moderateOverallTest (v : ℚ) : Bool :=
  v ≥ 2.0 && v < 3.0

/-- `(test (< ?v 2.0))` of `rule-low-overall` (same guard in `app.py`'s
`low-stress`). -/
def lowOverallTest (v : ℚ) : Bool :=
  v < 2.0

def highStressSymptom1 : CRule where
  name := "high-stress-symptom-1"
  guard := fun st => hasSymptom st "poor_sleep" && hasSymptom st "irritability"
    && hasSymptom st "deadline_pressure"
  effect := fun st => addResult (addSymptom st "stress_high_indicator")
    ⟨"high_risk", "high-stress-symptom-1",
      "Poor sleep, irritability, and deadline pressure detected"⟩

def highStressSymptom2 : CRule where
  name := "high-stress-symptom-2"
  guard := fun st => hasSymptom st "persistent_fatigue" &&
    hasSymptom st "difficulty_concentrating"
  effect := fun st => addResult (addSymptom st "stress_high_indicator")
    ⟨"high_risk", "high-stress-symptom-2",
      "Persistent fatigue and difficulty concentrating"⟩

def highStressSymptom3 : CRule where
  name := "high-stress-symptom-3"
  guard := fun st => hasSymptom st "skip_meals" && hasSymptom st "racing_thoughts"
  effect := fun st => addResult (addSymptom st "stress_high_indicator")
    ⟨"high_risk", "high-stress-symptom-3",
      "Skipping meals and racing thoughts detected"⟩

def moderateStressSymptom1 : CRule where
  name := "moderate-stress-symptom-1"
  guard := fun st => hasSymptom st "procrastination" &&
    hasSymptom st "deadline_pressure" &&
    !(hasSymptom st "stress_high_indicator")
  effect := fun st => addResult (addSymptom st "stress_moderate_indicator")
    ⟨"moderate_risk", "moderate-stress-symptom-1",
      "Procrastination with deadline pressure"⟩

def moderateStressSymptom2 : CRule where
  name := "moderate-stress-symptom-2"
  guard := fun st => hasSymptom st "social_withdrawal" &&
    hasSymptom st "irritability" &&
    !(hasSymptom st "stress_high_indicator")
  effect := fun st => addResult (addSymptom st "stress_moderate_indicator")
    ⟨"moderate_risk", "moderate-stress-symptom-2",
      "Social withdrawal and irritability"⟩

def lowStressSymptom : CRule where
  name := "low-stress-symptom"
  guard := fun st => hasSymptom st "minor_worry_only" &&
    !(hasSymptom st "stress_high_indicator") &&
    !(hasSymptom st "stress_moderate_indicator")
  effect := fun st => addResult (addSymptom st "stress_low_indicator")
    ⟨"low_risk", "low-stress-symptom", "Only minor worries detected"⟩

def overallHighStress : CRule where
  name := "overall-high-stress"
  guard := fun st => hasSymptom st "stress_high_indicator"
  effect := fun st => addResult (setOverall st 4.0)
    ⟨"very_high", "overall-high-stress", "Multiple high stress indicators present"⟩

def overallModerateStress : CRule where
  name := "overall-moderate-stress"
  guard := fun st => hasSymptom st "stress_moderate_indicator" &&
    !(hasSymptom st "stress_high_indicator")
  effect := fun st => addResult (setOverall st 2.5)
    ⟨"moderate", "overall-moderate-stress", "Moderate stress indicators present"⟩

def overallLowStress : CRule where
  name := "overall-low-stress"
  guard := fun st => hasSymptom st "stress_low_indicator" &&
    !(hasSymptom st "stress_high_indicator") &&
    !(hasSymptom st "stress_moderate_indicator")
  effect := fun st => addResult (setOverall st 1.5)
    ⟨"low", "overall-low-stress", "Only low stress indicators present"⟩

def checkOverallNotSet : CRule where
  name := "check-overall-not-set"
  guard := fun st => st.overall.isNone
  effect := fun st => { st with marks := st.marks ++ [false] }

def checkOverallSet : CRule where
  name := "check-overall-set"
  guard := fun st => st.overall.isSome
  effect := fun st => { st with marks := st.marks ++ [true] }

/-- `(test (> (/ ?tv ?mv) 0.8))` of `fallback-very-high-stress`.  (The
rational convention `tv / 0 = 0` stands in for CLIPS's division-by-zero
evaluation error, which also prevents the test from passing with a
positive total.) -/
def fallbackVeryHighTest (tv mv : ℚ) : Bool :=
  tv / mv > 0.8

/-- `(test (and (> (/ ?tv ?mv) 0.6) (<= (/ ?tv ?mv) 0.8)))`. -/
def fallbackHighTest (tv mv : ℚ) : Bool :=
  tv / mv > 0.6 && tv / mv ≤ 0.8

/-- `(test (and (> (/ ?tv ?mv) 0.4) (<= (/ ?tv ?mv) 0.6)))`. -/
def fallbackModerateTest (tv mv : ℚ) : Bool :=
  tv / mv > 0.4 && tv / mv ≤ 0.6

/-- `(test (<= (/ ?tv ?mv) 0.4))`. -/
def fallbackLowTest (tv mv : ℚ) : Bool :=
  tv / mv ≤ 0.4

/-- Shared left-hand side of the four fallback rules: both score metrics
bound, `(not (metric (name "overall")))`, and the rule's ratio test. -/
def fallbackGuard (test : ℚ → ℚ → Bool) (st : CState) : Bool :=
  match st.totalScore, st.maxScore, st.overall with
  | some tv, some mv, none => test tv mv
  | _, _, _ => false

def fallbackVeryHighStress : CRule where
  name := "fallback-very-high-stress"
  guard := fallbackGuard fallbackVeryHighTest
  effect := fun st => addResult (setOverall st 4.0)
    ⟨"very_high", "fallback-score-very-high", "Based on total score > 80%"⟩

def fallbackHighStress : CRule where
  name := "fallback-high-stress"
  guard := fallbackGuard fallbackHighTest
  effect := fun st => addResult (setOverall st 3.0)
    ⟨"high", "fallback-score-high", "Based on total score 60-80%"⟩

def fallbackModerateStress : CRule where
  name := "fallback-moderate-stress"
  guard := fallbackGuard fallbackModerateTest
  effect := fun st => addResult (setOverall st 2.0)
    ⟨"moderate", "fallback-score-moderate", "Based on total score 40-60%"⟩

def fallbackLowStress : CRule where
  name := "fallback-low-stress"
  guard := fallbackGuard fallbackLowTest
  effect := fun st => addResult (setOverall st 1.0)
    ⟨"low", "fallback-score-low", "Based on total score <= 40%"⟩

/-- Shared left-hand side of the four range rules:
`(metric (name "overall") (value ?v))` plus the numeric test. -/
def overallRangeGuard (test : ℚ → Bool) (st : CState) : Bool :=
  match st.overall with
  | some v => test v
  | none => false

def ruleVeryHighOverall : CRule where
  name := "rule-very-high-overall"
  guard := overallRangeGuard veryHighOverallTest
  effect := fun st => addResult st
    ⟨"very_high", "rule-very-high-overall", "Overall stress score >= 4.0"⟩

def ruleHighOverall : CRule where
  name := "rule-high-overall"
  guard := overallRangeGuard highOverallTest
  effect := fun st => addResult st
    ⟨"high", "rule-high-overall", "Overall stress score 3.0-3.99"⟩

def ruleModerateOverall : CRule where
  name := "rule-moderate-overall"
  guard := overallRangeGuard moderateOverallTest
  effect := fun st => addResult st
    ⟨"moderate", "rule-moderate-overall", "Overall stress score 2.0-2.99"⟩

def ruleLowOverall : CRule where
  name := "rule-low-overall"
  guard := overallRangeGuard lowOverallTest
  effect := fun st => addResult st
    ⟨"low", "rule-low-overall", "Overall stress score < 2.0"⟩

/-- The nineteen `defrule`s of `setup_knowledge_base`, in declaration
order. -/
def clipsRules : List CRule := [
  highStressSymptom1, highStressSymptom2, highStressSymptom3,
  moderateStressSymptom1, moderateStressSymptom2, lowStressSymptom,
  overallHighStress, overallModerateStress, overallLowStress,
  checkOverallNotSet, checkOverallSet,
  fallbackVeryHighStress, fallbackHighStress, fallbackModerateStress,
  fallbackLowStress,
  ruleVeryHighOverall, ruleHighOverall, ruleModerateOverall, ruleLowOverall]

/-- Fire a rule if it has not fired yet and its conditions hold. -/
def applyCRule (st : CState) (r : CRule) : CState :=
  if st.fired.contains r.name then st
  else if r.guard st then
    let st' := r.effect st
    { st' with fired := st'.fired ++ [r.name] }
  else st

/-- One full scan over the rule base in declaration order. -/
def clipsPass (st : CState) : CState :=
  clipsRules.foldl applyCRule st

/-- Scan to quiescence with explicit fuel (spec §4.2: the number of passes
is bounded by the rule layering; `clipsRules.length + 1` is ample since
each productive pass fires at least one of the nineteen rules). -/
def clipsChase : Nat → CState → CState
  | 0, st => st
  | n + 1, st =>
      let st' := clipsPass st
      if st' = st then st else clipsChase n st'

/-- `self.env.run()` on a freshly populated working memory. -/
def clipsRun (st : CState) : CState :=
  clipsChase (clipsRules.length + 1) st

/-- Working memory holding only symptom facts (as in claims about the
closure of a plain fact set: no score metrics are asserted). -/
def symptomState (names : List String) : CState :=
  { symptoms := names.foldl (fun acc n => if acc.contains n then acc
      else acc ++ [n]) [],
    totalScore := none, maxScore := none, overall := none,
    results := [], marks := [], fired := [] }

/-- The forward-chaining closure of a plain symptom fact set under the
CLIPS rule base. -/
def clipsClosure (names : List String) : CState :=
  clipsRun (symptomState names)

/-! ## project.py: CLIPSExpertSystem.evaluate_responses -/

/-- `symptom_mapping` of `evaluate_responses`: question name to the answer
values that assert a symptom fact, verbatim. -/
def symptomMapping : List (String × List (Int × String)) := [
  ("sleep_quality", [(4, "poor_sleep"), (5, "poor_sleep")]),
  ("irritability", [(4, "irritability"), (5, "irritability")]),
  ("study_load", [(4, "deadline_pressure"), (5, "deadline_pressure")]),
  ("depression", [(4, "persistent_fatigue"), (5, "persistent_fatigue")]),
  ("academic_performance",
    [(4, "difficulty_concentrating"), (5, "difficulty_concentrating")]),
  ("basic_needs", [(4, "skip_meals"), (5, "skip_meals")]),
  ("anxiety_level", [(4, "racing_thoughts"), (5, "racing_thoughts")]),
  ("future_career_concerns", [(4, "procrastination"), (5, "procrastination")]),
  ("social_support", [(1, "social_withdrawal"), (2, "social_withdrawal")]),
  ("peer_pressure", [(1, "minor_worry_only"), (2, "minor_worry_only")])]

/-- The `for question, value in responses.items()` assertion loop: assert
the mapped symptom fact (with value 1) for every mapped answer. -/
def initialSymptomFacts (responses : List (String × Int)) : List String :=
  responses.foldl (fun acc qv =>
    match symptomMapping.lookup qv.1 with
    | some m =>
        match m.lookup qv.2 with
        | some symptomName => if acc.contains symptomName then acc
                              else acc ++ [symptomName]
        | none => acc
    | none => acc) []

/-- The `results` dictionary produced by `evaluate_responses`. -/
structure EvalResult where
  stress_level : String
  overall_score : ℚ
  rules_triggered : List String
  explanations : List String
  recommendations : List String
  symptoms_detected : List String
  initial_symptoms : List String
  deriving DecidableEq, Repr

/-- `level_mapping` of `evaluate_responses`, verbatim. -/
def levelMapping : List (String × Int) := [
  ("very_high", 4), ("high", 3), ("moderate", 2), ("low", 1),
  ("high_risk", 4), ("moderate_risk", 3), ("low_risk", 2)]

/-- `level.replace("_risk", "").title()` on the classification vocabulary
the rule base can emit (these Python string methods are library functions;
the table is their value on every level string occurring in an asserted
`es_result`, other strings pass through unchanged). -/
def titleLevel : String → String
  | "very_high" => "Very_High"
  | "high" => "High"
  | "moderate" => "Moderate"
  | "low" => "Low"
  | "high_risk" => "High"
  | "moderate_risk" => "Moderate"
  | "low_risk" => "Low"
  | s => s

/-- `str.lower()` on the classification vocabulary reachable at the
recommendation-matching step (other strings pass through unchanged). -/
def lowerLevel : String → String
  | "Undetermined" => "undetermined"
  | "Very_High" => "very_high"
  | "High" => "high"
  | "Moderate" => "moderate"
  | "Low" => "low"
  | "Very High" => "very high"
  | s => s

/-- One step of the `es_result` scan: look up the priorities of the current
label and of the fact's level in `level_mapping` (default 0) and take the
fact's (re-titled) level when its priority is strictly greater. -/
def updateStressLevel (cur : String) (level : String) : String :=
  let curP := (levelMapping.lookup cur).getD 0
  let newP := (levelMapping.lookup level).getD 0
  if newP > curP then titleLevel level else cur

/-- A `recommendation` fact `(id, text, for_level)`. -/
structure RecFact where
  id : String
  text : String
  for_level : String
  deriving DecidableEq, Repr

/-- The eight recommendation facts asserted in `setup_knowledge_base`, in
assertion order. -/
def recommendationFacts : List RecFact := [
  ⟨"rec_breaks", "Take 5-10 minute breaks every hour of study.", "high"⟩,
  ⟨"rec_counselor",
    "Consider discussing coping strategies with a counselor.", "high"⟩,
  ⟨"rec_sleep",
    "Maintain regular sleep schedule, avoid screens 60 minutes before bed.",
    "high"⟩,
  ⟨"rec_time_block",
    "Use time blocking for tasks with clear start and end times.", "high"⟩,
  ⟨"rec_plan", "Plan 3-5 priority tasks weekly, break them into subtasks.",
    "moderate"⟩,
  ⟨"rec_exercise", "Light exercise 3-4 times per week, 20-30 minutes each.",
    "moderate"⟩,
  ⟨"rec_peer",
    "Study with peers or communicate regularly to reduce isolation.",
    "moderate"⟩,
  ⟨"rec_monitor",
    "Maintain daily routine, record mood and sleep, review weekly.", "low"⟩]

/-- Python's `sub in hay` substring test. -/
def strContains (hay sub : String) : Bool :=
  decide (sub.toList <:+: hay.toList)

/-- The ten initial symptom names recognised by the
`results["initial_symptoms"]` filter. -/
def baseSymptomNames : List String := [
  "poor_sleep", "irritability", "deadline_pressure", "persistent_fatigue",
  "difficulty_concentrating", "skip_meals", "racing_thoughts",
  "procrastination", "social_withdrawal", "minor_worry_only"]

/-- `CLIPSExpertSystem.evaluate_responses(responses)`: populate the working
memory with symptom facts and the two score metrics, run the rule base,
and collect the result dictionary. -/
def evaluateResponses (responses : List (String × Int)) : EvalResult :=
  let total_score : Int := (responses.map (·.2)).sum
  let max_score : Int := responses.length * 5
  let st0 : CState :=
    { symptoms := initialSymptomFacts responses,
      totalScore := some (total_score : ℚ),
      maxScore := some (max_score : ℚ),
      overall := none, results := [], marks := [], fired := [] }
  let st := clipsRun st0
  let stressLevel :=
    st.results.foldl (fun cur r => updateStressLevel cur r.level) "Undetermined"
  let stressLower := lowerLevel stressLevel
  let recs := (recommendationFacts.filter (fun rec =>
      strContains stressLower rec.for_level ||
        strContains rec.for_level stressLower)).map (·.text)
  let symptomsDetected :=
    st.symptoms.filter (fun n => !(strContains n "indicator"))
  let finalStress :=
    if stressLevel = "Undetermined" then
      let score_ratio : ℚ :=
        if max_score > 0 then (total_score : ℚ) / (max_score : ℚ) else 0
      if score_ratio > 0.8 then "Very High"
      else if score_ratio > 0.6 then "High"
      else if score_ratio > 0.4 then "Moderate"
      else "Low"
    else stressLevel
  { stress_level := finalStress,
    overall_score := st.overall.getD 0,
    rules_triggered := st.results.map (·.rule),
    explanations := st.results.map (·.explanation),
    recommendations := recs,
    symptoms_detected := symptomsDetected,
    initial_symptoms := symptomsDetected.filter (fun n =>
      baseSymptomNames.contains n) }

/-! ## project.py: the /assess reconciliation -/

/-- The reconciliation step of the `/assess` route: run the priority rule
engine on a fresh `Student`, run the CLIPS evaluation, and prefer the
CLIPS level unless it is `"Undetermined"`, in which case fall back to the
student's `final_stress`. -/
def assessFinalStress (name : String) (responses : List (String × Int)) :
    String :=
  let student := (runEngine (mkStudent name responses)).student
  let clips_level := (evaluateResponses responses).stress_level
  if clips_level ≠ "Undetermined" then clips_level
  else student.final_stress

/-! ## Definitions used in stating and proving the claims -/

/-- The part of a `Student` that rule conditions and action display
strings read: the attribute fields, the name, and the raw responses. -/
def studentCore (s : Student) : StudentAttrs × String × List (String × Int) :=
  (s.attrs, s.name, s.responses)

/-- A well-behaved evaluator rule: its action writes only the output
fields (`final_stress`, `reasons`, `section_reasons`), and its condition
and display string depend only on `studentCore`. -/
def GoodRule (r : ERule) : Prop :=
  (∀ s, studentCore (r.act s).1 = studentCore s) ∧
  (∀ s t, studentCore s = studentCore t → r.cond s = r.cond t) ∧
  (∀ s t, studentCore s = studentCore t → (r.act s).2 = (r.act t).2)

/-- The fired-trace contribution of one rule of `RuleEngine.run`. -/
def trigSelect (s : Student) (r : ERule) : Option String :=
  if r.cond s then some r.name else none

/-- The results contribution of one rule of `RuleEngine.run` (an action
output is collected when truthy, i.e. nonempty). -/
def outSelect (s : Student) (r : ERule) : Option String :=
  if r.cond s then (if (r.act s).2 = "" then none else some (r.act s).2)
  else none

/-- Priority of a registered evaluator rule, looked up by rule name. -/
def rulePriorityOf : String → Nat
  | "Critical Mental State" => 100
  | "Severe Physical Symptoms" => 90
  | "Bullying Crisis" => 85
  | "Academic Pressure" => 70
  | "Environmental Stress" => 60
  | "Social Support Issue" => 55
  | "Overall Score" => 10
  | _ => 0

/-- The sum of the twenty defaulted attribute fields of the Subject
Record.  This follows the claim's words — "the sum of attribute values,
where each of the ~20 attributes ranges 1–5 (defaulting to 1 when
unanswered)" — and is to be compared with `score_action`, which sums the
raw `responses` values instead. -/
def specAttributeSum (s : Student) : Int :=
  s.attrs.anxiety_level + s.attrs.self_esteem + s.attrs.mental_health_history +
  s.attrs.depression + s.attrs.headache + s.attrs.blood_pressure +
  s.attrs.sleep_quality + s.attrs.breathing_problem + s.attrs.noise_level +
  s.attrs.living_conditions + s.attrs.safety + s.attrs.basic_needs +
  s.attrs.academic_performance + s.attrs.study_load +
  s.attrs.teacher_student_relationship + s.attrs.future_career_concerns +
  s.attrs.social_support + s.attrs.peer_pressure +
  s.attrs.extracurricular_activities + s.attrs.bullying

/-- How many of the four `overall` range-classification guards accept a
metric value `v`. -/
def overallRangeMatchCount (v : ℚ) : Nat :=
  (if veryHighOverallTest v then 1 else 0) +
  (if highOverallTest v then 1 else 0) +
  (if moderateOverallTest v then 1 else 0) +
  (if lowOverallTest v then 1 else 0)

/-- The `es_result` levels the CLIPS rule base can assert. -/
def clipsLevels : List String :=
  ["very_high", "high", "moderate", "low", "high_risk", "moderate_risk",
   "low_risk"]

/-- A CLIPS rule whose right-hand side asserts `es_result` facts only with
levels from the rule base's vocabulary. -/
def GoodCRule (r : CRule) : Prop :=
  ∀ st : CState, ∀ e ∈ (r.effect st).results,
    e ∈ st.results ∨ e.level ∈ clipsLevels

/-- All asserted `es_result` levels are from the rule base's vocabulary. -/
def levelsOK (st : CState) : Prop :=
  ∀ e ∈ st.results, e.level ∈ clipsLevels

/-- The labels `results["stress_level"]` can hold during the `es_result`
scan of `evaluate_responses`. -/
def scanLabels : List String :=
  ["Undetermined", "Very_High", "High", "Moderate", "Low"]

/-! ## Lemmas: sample.py scan loop -/

theorem subset_stepOnce (facts : Finset String) (r : SRule) :
    facts ⊆ stepOnce facts r := by
  unfold stepOnce
  split
  · exact Finset.Subset.refl _
  split
  · exact Finset.subset_insert _ _
  · exact Finset.Subset.refl _

theorem stepOnce_subset (facts : Finset String) (r : SRule) :
    stepOnce facts r ⊆ insert r.2 facts := by
  unfold stepOnce
  split
  · exact Finset.subset_insert _ _
  split
  · exact Finset.Subset.refl _
  · exact Finset.subset_insert _ _

theorem foldl_stepOnce_super (rules : List SRule) (facts : Finset String) :
    facts ⊆ rules.foldl stepOnce facts := by
  induction rules generalizing facts with
  | nil => exact Finset.Subset.refl _
  | cons r rs ih =>
      exact (subset_stepOnce facts r).trans (ih (stepOnce facts r))

theorem subset_passRules (facts : Finset String) : facts ⊆ passRules facts :=
  foldl_stepOnce_super RULES facts

theorem foldl_stepOnce_subset (rules : List SRule) (facts : Finset String) :
    rules.foldl stepOnce facts ⊆ facts ∪ (rules.map (·.2)).toFinset := by
  induction rules generalizing facts with
  | nil => simp
  | cons r rs ih =>
      refine (ih (stepOnce facts r)).trans ?_
      intro x hx
      rcases Finset.mem_union.mp hx with hx | hx
      · rcases Finset.mem_insert.mp (stepOnce_subset facts r hx) with hx | hx
        · simp [hx]
        · exact Finset.mem_union_left _ hx
      · simp only [List.map_cons, List.toFinset_cons, Finset.mem_union,
          Finset.mem_insert]
        right; right
        exact hx

theorem passRules_subset (facts : Finset String) :
    passRules facts ⊆ facts ∪ conclusionsF :=
  foldl_stepOnce_subset RULES facts

/-! ### Monotonicity for the (all-positive) sample.py rule base -/

theorem stepOnce_mono {s t : Finset String} (h : s ⊆ t) (r : SRule) :
    stepOnce s r ⊆ stepOnce t r := by
  intro x hx
  unfold stepOnce at hx ⊢
  have hmem : x ∈ s ∨ (x = r.2 ∧ r.1.all (fun c => c ∈ s)) := by
    revert hx
    split
    · exact fun hx => Or.inl hx
    split
    · next hall =>
        intro hx
        rcases Finset.mem_insert.mp hx with hx | hx
        · exact Or.inr ⟨hx, by assumption⟩
        · exact Or.inl hx
    · exact fun hx => Or.inl hx
  have hxt : x ∈ t ∨ (x = r.2 ∧ r.1.all (fun c => c ∈ t)) := by
    rcases hmem with hx | ⟨hx, hall⟩
    · exact Or.inl (h hx)
    · refine Or.inr ⟨hx, ?_⟩
      simp only [List.all_eq_true, decide_eq_true_eq] at hall ⊢
      exact fun c hc => h (hall c hc)
  split
  · next hin =>
      rcases hxt with hx | ⟨hx, _⟩
      · exact hx
      · exact hx ▸ hin
  split
  · next hall =>
      rcases hxt with hx | ⟨hx, _⟩
      · exact Finset.mem_insert_of_mem hx
      · exact hx ▸ Finset.mem_insert_self _ _
  · next hnall =>
      rcases hxt with hx | ⟨hx, hall⟩
      · exact hx
      · exact absurd hall hnall

theorem foldl_stepOnce_mono (rules : List SRule) {s t : Finset String}
    (h : s ⊆ t) : rules.foldl stepOnce s ⊆ rules.foldl stepOnce t := by
  induction rules generalizing s t with
  | nil => exact h
  | cons r rs ih => exact ih (stepOnce_mono h r)

theorem passRules_mono {s t : Finset String} (h : s ⊆ t) :
    passRules s ⊆ passRules t := foldl_stepOnce_mono RULES h

/- `passRules` applied to an unknown store must never be unfolded during
unification (the fourteen nested conditionals blow up exponentially); the
reasoning below goes through the lemmas above instead. -/
section
attribute [local irreducible] passRules

/-- Fuel bound: with more fuel than the number of conclusions still missing
from the store, the scan loop reaches a genuine fixed point. -/
theorem chase_succ (n : Nat) (facts : Finset String) :
    chase (n + 1) facts =
      if passRules facts = facts then facts else chase n (passRules facts) :=
  rfl

theorem passRules_chase (C : Finset String)
    (hC : ∀ f : Finset String, passRules f ⊆ f ∪ C)
    (fuel : Nat) (facts : Finset String)
    (h : (C \ facts).card < fuel) :
    passRules (chase fuel facts) = chase fuel facts := by
  induction fuel generalizing facts with
  | zero => omega
  | succ n ih =>
      by_cases hc : passRules facts = facts
      · rw [chase_succ, if_pos hc, hc]
      · rw [chase_succ, if_neg hc]
        refine ih (passRules facts) ?_
        have hsub : facts ⊆ passRules facts := subset_passRules facts
        have hssub : facts ⊂ passRules facts :=
          Finset.ssubset_iff_subset_ne.mpr ⟨hsub, fun h => hc h.symm⟩
        obtain ⟨x, hxp, hxf⟩ := Finset.exists_of_ssubset hssub
        have hxc : x ∈ C := by
          rcases Finset.mem_union.mp (hC facts hxp) with hx | hx
          · exact absurd hx hxf
          · exact hx
        have hmono : C \ passRules facts ⊆ C \ facts :=
          Finset.sdiff_subset_sdiff (Finset.Subset.refl _) hsub
        have hx_in : x ∈ C \ facts := Finset.mem_sdiff.mpr ⟨hxc, hxf⟩
        have hx_out : x ∉ C \ passRules facts := by
          simp [Finset.mem_sdiff, hxp]
        have hcard : (C \ passRules facts).card < (C \ facts).card :=
          Finset.card_lt_card (Finset.ssubset_iff_of_subset hmono |>.mpr
            ⟨x, hx_in, hx_out⟩)
        omega

/-- The closure is a fixed point of a full scan. -/
theorem passRules_closureF (facts : Finset String) :
    passRules (closureF facts) = closureF facts := by
  have h1 : (conclusionsF \ facts).card ≤ conclusionsF.card :=
    Finset.card_le_card (Finset.sdiff_subset)
  have h2 : conclusionsF.card ≤ 14 := by decide
  have h3 : RULES.length = 14 := by decide
  have hlt : (conclusionsF \ facts).card < RULES.length + 1 := by omega
  exact passRules_chase conclusionsF passRules_subset (RULES.length + 1)
    facts hlt

theorem chase_of_fixed (fuel : Nat) (facts : Finset String)
    (h : passRules facts = facts) : chase fuel facts = facts := by
  cases fuel with
  | zero => rfl
  | succ n => rw [chase_succ]; simp [h]

/-- Running the resolver on its own output changes nothing. -/
theorem closureF_idem (facts : Finset String) :
    closureF (closureF facts) = closureF facts :=
  chase_of_fixed _ _ (passRules_closureF facts)

theorem chase_eq_iterate (fuel : Nat) (facts : Finset String) :
    chase fuel facts = passRules^[fuel] facts := by
  induction fuel generalizing facts with
  | zero => rfl
  | succ n ih =>
      rw [chase_succ, Function.iterate_succ_apply]
      split
      · next heq => rw [heq, Function.iterate_fixed heq n]
      · exact ih (passRules facts)

/-- Adding initial facts never removes derivable conclusions — for the
all-positive rule base of `sample.py`. -/
theorem closureF_mono {s t : Finset String} (h : s ⊆ t) :
    closureF s ⊆ closureF t := by
  unfold closureF
  rw [chase_eq_iterate, chase_eq_iterate]
  induction (RULES.length + 1) with
  | zero => exact h
  | succ n ih =>
      rw [Function.iterate_succ_apply', Function.iterate_succ_apply']
      exact passRules_mono ih

end

/-! ## Lemmas: the priority rule engine -/

theorem core_attrs {s t : Student} (h : studentCore s = studentCore t) :
    s.attrs = t.attrs :=
  congrArg Prod.fst h

theorem core_name {s t : Student} (h : studentCore s = studentCore t) :
    s.name = t.name :=
  congrArg (fun p => p.2.1) h

theorem core_responses {s t : Student} (h : studentCore s = studentCore t) :
    s.responses = t.responses :=
  congrArg (fun p => p.2.2) h

theorem good_criticalMentalStateRule : GoodRule criticalMentalStateRule := by
  refine ⟨fun s => rfl, fun s t h => ?_, fun s t h => ?_⟩
  · simp only [criticalMentalStateRule, critical_mental_health_rule,
      core_attrs h]
  · simp only [criticalMentalStateRule, critical_mental_health_action,
      core_name h]

theorem good_severePhysicalSymptomsRule : GoodRule severePhysicalSymptomsRule := by
  refine ⟨fun s => rfl, fun s t h => ?_, fun s t h => ?_⟩
  · simp only [severePhysicalSymptomsRule, severe_physical_rule, core_attrs h]
  · simp only [severePhysicalSymptomsRule, severe_physical_action, core_name h]

theorem good_bullyingCrisisRule : GoodRule bullyingCrisisRule := by
  refine ⟨fun s => rfl, fun s t h => ?_, fun s t h => ?_⟩
  · simp only [bullyingCrisisRule, bullying_rule, core_attrs h]
  · simp only [bullyingCrisisRule, bullying_action, core_name h]

theorem good_academicPressureRule : GoodRule academicPressureRule := by
  refine ⟨fun s => rfl, fun s t h => ?_, fun s t h => ?_⟩
  · simp only [academicPressureRule, academic_pressure_rule, core_attrs h]
  · simp only [academicPressureRule, academic_pressure_action, core_name h]

theorem good_environmentalStressRule : GoodRule environmentalStressRule := by
  refine ⟨fun s => rfl, fun s t h => ?_, fun s t h => ?_⟩
  · simp only [environmentalStressRule, environment_rule, core_attrs h]
  · simp only [environmentalStressRule, environment_action, core_name h]

theorem good_socialSupportIssueRule : GoodRule socialSupportIssueRule := by
  refine ⟨fun s => rfl, fun s t h => ?_, fun s t h => ?_⟩
  · simp only [socialSupportIssueRule, social_rule, core_attrs h]
  · simp only [socialSupportIssueRule, social_action, core_name h]

theorem good_overallScoreRule : GoodRule overallScoreRule := by
  refine ⟨fun s => rfl, fun s t h => rfl, fun s t h => ?_⟩
  simp only [overallScoreRule, score_action, core_name h, core_responses h]

theorem goodRules_first_six :
    ∀ r ∈ [criticalMentalStateRule, severePhysicalSymptomsRule,
      bullyingCrisisRule, academicPressureRule, environmentalStressRule,
      socialSupportIssueRule], GoodRule r := by
  intro r hr
  simp only [List.mem_cons, List.not_mem_nil, or_false] at hr
  rcases hr with rfl | rfl | rfl | rfl | rfl | rfl
  · exact good_criticalMentalStateRule
  · exact good_severePhysicalSymptomsRule
  · exact good_bullyingCrisisRule
  · exact good_academicPressureRule
  · exact good_environmentalStressRule
  · exact good_socialSupportIssueRule

theorem goodRules_all : ∀ r ∈ engineRules, GoodRule r := by
  intro r hr
  simp only [engineRules, List.mem_cons, List.not_mem_nil, or_false] at hr
  rcases hr with rfl | rfl | rfl | rfl | rfl | rfl | rfl
  · exact good_criticalMentalStateRule
  · exact good_severePhysicalSymptomsRule
  · exact good_bullyingCrisisRule
  · exact good_academicPressureRule
  · exact good_environmentalStressRule
  · exact good_socialSupportIssueRule
  · exact good_overallScoreRule

theorem runStep_core (acc : RunState) (r : ERule) (hg : GoodRule r) :
    studentCore (runStep acc r).student = studentCore acc.student := by
  unfold runStep
  split
  · exact hg.1 acc.student
  · rfl

theorem foldRun_spec (rules : List ERule) (hg : ∀ r ∈ rules, GoodRule r)
    (acc : RunState) :
    (rules.foldl runStep acc).triggered
        = acc.triggered ++ rules.filterMap (trigSelect acc.student) ∧
    (rules.foldl runStep acc).results
        = acc.results ++ rules.filterMap (outSelect acc.student) ∧
    studentCore (rules.foldl runStep acc).student = studentCore acc.student := by
  induction rules generalizing acc with
  | nil => simp
  | cons r rs ih =>
      have hgr : GoodRule r := hg r (by simp)
      have hgs : ∀ r' ∈ rs, GoodRule r' := fun r' hr' => hg r' (by simp [hr'])
      have hcore : studentCore (runStep acc r).student = studentCore acc.student :=
        runStep_core acc r hgr
      have htrig : rs.filterMap (trigSelect (runStep acc r).student)
          = rs.filterMap (trigSelect acc.student) :=
        List.filterMap_congr (fun r' hr' => by
          unfold trigSelect
          rw [(hgs r' hr').2.1 _ _ hcore])
      have hout : rs.filterMap (outSelect (runStep acc r).student)
          = rs.filterMap (outSelect acc.student) :=
        List.filterMap_congr (fun r' hr' => by
          unfold outSelect
          rw [(hgs r' hr').2.1 _ _ hcore, (hgs r' hr').2.2 _ _ hcore])
      obtain ⟨iht, ihr, ihc⟩ := ih hgs (runStep acc r)
      refine ⟨?_, ?_, ?_⟩
      · rw [List.foldl_cons, iht, htrig, List.filterMap_cons]
        unfold runStep trigSelect
        split
        · simp
        · simp
      · rw [List.foldl_cons, ihr, hout, List.filterMap_cons]
        unfold runStep outSelect
        by_cases hc : r.cond acc.student
        · by_cases hempty : (r.act acc.student).2 = ""
          · simp [hc, hempty]
          · simp [hc, hempty]
        · simp [hc]
      · rw [List.foldl_cons, ihc, hcore]

theorem sortEngineRules : sortRulesDesc engineRules = engineRules := rfl

theorem runEngine_spec (s : Student) :
    (runEngine s).triggered = engineRules.filterMap (trigSelect s) ∧
    (runEngine s).results = engineRules.filterMap (outSelect s) ∧
    studentCore (runEngine s).student = studentCore s := by
  have h := foldRun_spec engineRules goodRules_all ⟨s, [], []⟩
  unfold runEngine
  rw [sortEngineRules]
  simpa using h

theorem engineRules_decomp :
    engineRules = [criticalMentalStateRule, severePhysicalSymptomsRule,
      bullyingCrisisRule, academicPressureRule, environmentalStressRule,
      socialSupportIssueRule] ++ [overallScoreRule] := rfl

theorem runStep_overallScore (acc : RunState) :
    (runStep acc overallScoreRule).student.final_stress
      = scoreStressLabel (sumValues acc.student.responses) := rfl

theorem runEngine_final_stress (s : Student) :
    (runEngine s).student.final_stress
      = scoreStressLabel (sumValues s.responses) := by
  unfold runEngine
  rw [sortEngineRules, engineRules_decomp, List.foldl_append]
  have h6 := foldRun_spec _ goodRules_first_six ⟨s, [], []⟩
  have hresp : (List.foldl runStep ⟨s, [], []⟩
      [criticalMentalStateRule, severePhysicalSymptomsRule, bullyingCrisisRule,
        academicPressureRule, environmentalStressRule,
        socialSupportIssueRule]).student.responses = s.responses :=
    core_responses h6.2.2
  rw [List.foldl_cons, List.foldl_nil, runStep_overallScore, hresp]

/-! ## Lemmas: the modelled CLIPS run -/

theorem addSymptom_results (st : CState) (n : String) :
    (addSymptom st n).results = st.results := by
  unfold addSymptom
  split <;> rfl

theorem setOverall_results (st : CState) (v : ℚ) :
    (setOverall st v).results = st.results := by
  unfold setOverall
  cases st.overall <;> rfl

theorem mem_results_addResult {st : CState} {lit e : EsResult}
    (he : e ∈ (addResult st lit).results) : e ∈ st.results ∨ e = lit := by
  simp only [addResult] at he
  rcases List.mem_append.mp he with h | h
  · exact Or.inl h
  · exact Or.inr (List.mem_singleton.mp h)

theorem goodCRules_all : ∀ r ∈ clipsRules, GoodCRule r := by
  intro r hr
  simp only [clipsRules, List.mem_cons, List.not_mem_nil, or_false] at hr
  rcases hr with rfl | rfl | rfl | rfl | rfl | rfl | rfl | rfl | rfl | rfl |
    rfl | rfl | rfl | rfl | rfl | rfl | rfl | rfl | rfl
  · intro st e he
    simp only [highStressSymptom1] at he
    rcases mem_results_addResult he with h | rfl
    · rw [addSymptom_results] at h; exact Or.inl h
    · right; decide
  · intro st e he
    simp only [highStressSymptom2] at he
    rcases mem_results_addResult he with h | rfl
    · rw [addSymptom_results] at h; exact Or.inl h
    · right; decide
  · intro st e he
    simp only [highStressSymptom3] at he
    rcases mem_results_addResult he with h | rfl
    · rw [addSymptom_results] at h; exact Or.inl h
    · right; decide
  · intro st e he
    simp only [moderateStressSymptom1] at he
    rcases mem_results_addResult he with h | rfl
    · rw [addSymptom_results] at h; exact Or.inl h
    · right; decide
  · intro st e he
    simp only [moderateStressSymptom2] at he
    rcases mem_results_addResult he with h | rfl
    · rw [addSymptom_results] at h; exact Or.inl h
    · right; decide
  · intro st e he
    simp only [lowStressSymptom] at he
    rcases mem_results_addResult he with h | rfl
    · rw [addSymptom_results] at h; exact Or.inl h
    · right; decide
  · intro st e he
    simp only [overallHighStress] at he
    rcases mem_results_addResult he with h | rfl
    · rw [setOverall_results] at h; exact Or.inl h
    · right; decide
  · intro st e he
    simp only [overallModerateStress] at he
    rcases mem_results_addResult he with h | rfl
    · rw [setOverall_results] at h; exact Or.inl h
    · right; decide
  · intro st e he
    simp only [overallLowStress] at he
    rcases mem_results_addResult he with h | rfl
    · rw [setOverall_results] at h; exact Or.inl h
    · right; decide
  · intro st e he
    simp only [checkOverallNotSet] at he
    exact Or.inl he
  · intro st e he
    simp only [checkOverallSet] at he
    exact Or.inl he
  · intro st e he
    simp only [fallbackVeryHighStress] at he
    rcases mem_results_addResult he with h | rfl
    · rw [setOverall_results] at h; exact Or.inl h
    · right; decide
  · intro st e he
    simp only [fallbackHighStress] at he
    rcases mem_results_addResult he with h | rfl
    · rw [setOverall_results] at h; exact Or.inl h
    · right; decide
  · intro st e he
    simp only [fallbackModerateStress] at he
    rcases mem_results_addResult he with h | rfl
    · rw [setOverall_results] at h; exact Or.inl h
    · right; decide
  · intro st e he
    simp only [fallbackLowStress] at he
    rcases mem_results_addResult he with h | rfl
    · rw [setOverall_results] at h; exact Or.inl h
    · right; decide
  · intro st e he
    simp only [ruleVeryHighOverall] at he
    rcases mem_results_addResult he with h | rfl
    · exact Or.inl h
    · right; decide
  · intro st e he
    simp only [ruleHighOverall] at he
    rcases mem_results_addResult he with h | rfl
    · exact Or.inl h
    · right; decide
  · intro st e he
    simp only [ruleModerateOverall] at he
    rcases mem_results_addResult he with h | rfl
    · exact Or.inl h
    · right; decide
  · intro st e he
    simp only [ruleLowOverall] at he
    rcases mem_results_addResult he with h | rfl
    · exact Or.inl h
    · right; decide

theorem applyCRule_levelsOK {st : CState} {r : CRule} (hr : GoodCRule r)
    (h : levelsOK st) : levelsOK (applyCRule st r) := by
  unfold applyCRule
  split
  · exact h
  split
  · intro e he
    rcases hr st e he with h' | h'
    · exact h e h'
    · exact h'
  · exact h

theorem foldl_applyCRule_levelsOK (rules : List CRule)
    (hg : ∀ r ∈ rules, GoodCRule r) {st : CState} (h : levelsOK st) :
    levelsOK (rules.foldl applyCRule st) := by
  induction rules generalizing st with
  | nil => exact h
  | cons r rs ih =>
      exact ih (fun r' hr' => hg r' (by simp [hr']))
        (applyCRule_levelsOK (hg r (by simp)) h)

theorem clipsPass_levelsOK {st : CState} (h : levelsOK st) :
    levelsOK (clipsPass st) :=
  foldl_applyCRule_levelsOK clipsRules goodCRules_all h

/- As with `passRules`, `clipsPass` applied to an unknown store must never
be unfolded during unification. -/
section
attribute [local irreducible] clipsPass

theorem clipsChase_succ (n : Nat) (st : CState) :
    clipsChase (n + 1) st =
      if clipsPass st = st then st else clipsChase n (clipsPass st) :=
  rfl

theorem clipsChase_levelsOK (fuel : Nat) {st : CState} (h : levelsOK st) :
    levelsOK (clipsChase fuel st) := by
  induction fuel generalizing st with
  | zero => exact h
  | succ n ih =>
      rw [clipsChase_succ]
      split
      · exact h
      · exact ih (clipsPass_levelsOK h)

theorem clipsRun_levelsOK {st : CState} (h : levelsOK st) :
    levelsOK (clipsRun st) :=
  clipsChase_levelsOK _ h

end

theorem foldStress_mem :
    ∀ (results : List EsResult) (cur : String), cur ∈ scanLabels →
      (∀ e ∈ results, e.level ∈ clipsLevels) →
      results.foldl (fun c r => updateStressLevel c r.level) cur ∈ scanLabels := by
  intro results
  induction results with
  | nil => intro cur hcur _; exact hcur
  | cons r rs ih =>
      intro cur hcur hres
      have hr : r.level ∈ clipsLevels := hres r (by simp)
      have hrs : ∀ e ∈ rs, e.level ∈ clipsLevels :=
        fun e he => hres e (by simp [he])
      rw [List.foldl_cons]
      refine ih _ ?_ hrs
      simp only [updateStressLevel]
      split
      · simp only [clipsLevels, List.mem_cons, List.not_mem_nil, or_false] at hr
        rcases hr with h | h | h | h | h | h | h <;> rw [h] <;> decide
      · exact hcur

/-- The symbolic half of the totality claim: whatever the responses, the
collected stress label is one of the classification labels (never
`"Undetermined"`). -/
theorem evaluateResponses_label_mem (responses : List (String × Int)) :
    (evaluateResponses responses).stress_level ∈
      (["Very_High", "High", "Moderate", "Low", "Very High"] : List String) := by
  unfold evaluateResponses
  simp only
  have hOK : levelsOK (clipsRun
      { symptoms := initialSymptomFacts responses,
        totalScore := some (((responses.map (·.2)).sum : Int) : ℚ),
        maxScore := some ((((responses.length) * 5 : Int)) : ℚ),
        overall := none, results := [], marks := [], fired := [] }) :=
    clipsRun_levelsOK (by intro e he; cases he)
  have hs := foldStress_mem _ "Undetermined" (by decide) hOK
  by_cases hU : (clipsRun
      { symptoms := initialSymptomFacts responses,
        totalScore := some (((responses.map (·.2)).sum : Int) : ℚ),
        maxScore := some ((((responses.length) * 5 : Int)) : ℚ),
        overall := none, results := [], marks := [],
        fired := [] }).results.foldl
      (fun c r => updateStressLevel c r.level) "Undetermined" = "Undetermined"
  · rw [if_pos hU]
    split <;> split <;> (try split) <;> (try split) <;>
      with_unfolding_all decide
  · rw [if_neg hU]
    simp only [scanLabels, List.mem_cons, List.not_mem_nil, or_false] at hs
    rcases hs with h | h | h | h | h
    · exact absurd h hU
    · rw [h]; decide
    · rw [h]; decide
    · rw [h]; decide
    · rw [h]; decide

/-! ## The claims -/

/-- C1 — Reconciler precedence: for every input mapping, if the CLIPS
evaluation yields a classification other than `"Undetermined"`, the final
classification of `/assess` equals the CLIPS classification regardless of
the rule engine's baseline; if it yields `"Undetermined"`, the final
classification equals the baseline stored in the student's `final_stress`
field. -/
theorem c1_reconciler_precedence (name : String)
    (responses : List (String × Int)) :
    ((evaluateResponses responses).stress_level ≠ "Undetermined" →
      assessFinalStress name responses
        = (evaluateResponses responses).stress_level) ∧
    ((evaluateResponses responses).stress_level = "Undetermined" →
      assessFinalStress name responses
        = (runEngine (mkStudent name responses)).student.final_stress) := by
  constructor <;> intro h
  · simp only [assessFinalStress]
    rw [if_pos h]
  · simp only [assessFinalStress]
    rw [if_neg (fun hne => hne h)]

/-- C1 witness at the empty mapping. -/
theorem c1_reconciler_precedence_witness :
    (evaluateResponses []).stress_level ≠ "Undetermined" ∧
    assessFinalStress "x" [] = (evaluateResponses []).stress_level :=
  ⟨by with_unfolding_all decide,
   (c1_reconciler_precedence "x" []).1 (by with_unfolding_all decide)⟩

/-- C2 — Classification range partition: for every rational metric value
`v`, exactly one of the four `overall` range-classification rule guards
(`>= 4.0`, `[3.0, 4.0)`, `[2.0, 3.0)`, `< 2.0`) accepts `v`. -/
theorem c2_classification_partition (v : ℚ) :
    overallRangeMatchCount v = 1 := by
  unfold overallRangeMatchCount veryHighOverallTest highOverallTest
    moderateOverallTest lowOverallTest
  have e4 : (4.0 : ℚ) = 4 := by norm_num
  have e3 : (3.0 : ℚ) = 3 := by norm_num
  have e2 : (2.0 : ℚ) = 2 := by norm_num
  simp only [ge_iff_le, Bool.and_eq_true, decide_eq_true_eq, e4, e3, e2]
  by_cases h2 : v < 2
  · have n2 : ¬ (2:ℚ) ≤ v := by linarith
    have n3 : ¬ (3:ℚ) ≤ v := by linarith
    have n4 : ¬ (4:ℚ) ≤ v := by linarith
    simp [h2, n2, n3, n4]
  · by_cases h3 : v < 3
    · have y2 : (2:ℚ) ≤ v := by linarith
      have n3 : ¬ (3:ℚ) ≤ v := by linarith
      have n4 : ¬ (4:ℚ) ≤ v := by linarith
      simp [h2, h3, y2, n3, n4]
    · by_cases h4 : v < 4
      · have y3 : (3:ℚ) ≤ v := by linarith
        have n4 : ¬ (4:ℚ) ≤ v := by linarith
        simp [h2, h3, h4, y3, n4]
      · have y4 : (4:ℚ) ≤ v := by linarith
        simp [h2, h3, h4, y4]

/-- C3 counterexample — under the rule base with negative conditions, a
larger initial symptom set loses a conclusion that the smaller one
derives: adding the facts that trigger `high-stress-symptom-2` blocks
`low-stress-symptom`, so `stress_low_indicator` disappears from the
closure of the larger set. -/
theorem c3_monotonicity_counterexample :
    (["minor_worry_only"] : List String).toFinset ⊆
      (["minor_worry_only", "persistent_fatigue",
        "difficulty_concentrating"] : List String).toFinset ∧
    "stress_low_indicator" ∈ (clipsClosure ["minor_worry_only"]).symptoms ∧
    "stress_low_indicator" ∉ (clipsClosure ["minor_worry_only",
      "persistent_fatigue", "difficulty_concentrating"]).symptoms := by
  refine ⟨by decide, ?_, ?_⟩ <;> with_unfolding_all decide

/-- C3 (amended) — Monotonicity of the forward-chaining closure holds for
the all-positive rule base of `sample.py`: for initial fact sets
`S1 ⊆ S2`, `closure(S1) ⊆ closure(S2)`.  (It fails for the CLIPS rule
base, whose rules test for the absence of `stress_high_indicator`.) -/
theorem c3_monotonicity_amended {s t : Finset String} (h : s ⊆ t) :
    closureF s ⊆ closureF t :=
  closureF_mono h

/-- C3 amended witness at a concrete pair of fact sets. -/
theorem c3_monotonicity_amended_witness :
    (({"poor_sleep"} : Finset String) ⊆ {"poor_sleep", "irritability"}) ∧
    closureF ({"poor_sleep"} : Finset String) ⊆
      closureF {"poor_sleep", "irritability"} :=
  ⟨by decide, c3_monotonicity_amended (by decide)⟩

/-- C4 — Fixpoint idempotence: for every initial fact set, running the
forward-chaining closure on its own output derives no new facts:
`closure (closure S) = closure S`. -/
theorem c4_fixpoint_idempotence (s : Finset String) :
    closureF (closureF s) = closureF s :=
  closureF_idem s

/-- C5 — Fallback rule policy: a fallback rule's conditions hold only when
the `overall` metric is unset; when it is unset (and the score metrics are
bound), the guards fire exactly according to the `total_score / max_score`
thresholds, and each fallback rule asserts the corresponding
classification. -/
theorem c5_fallback_policy (st : CState) (tv mv : ℚ)
    (hT : st.totalScore = some tv) (hM : st.maxScore = some mv) :
    ((fallbackVeryHighStress.guard st || fallbackHighStress.guard st ||
        fallbackModerateStress.guard st || fallbackLowStress.guard st) = true →
      st.overall = none) ∧
    (st.overall = none →
      ((fallbackVeryHighStress.guard st = true ↔ tv / mv > 0.8) ∧
       (fallbackHighStress.guard st = true ↔
         (0.6 < tv / mv ∧ tv / mv ≤ 0.8)) ∧
       (fallbackModerateStress.guard st = true ↔
         (0.4 < tv / mv ∧ tv / mv ≤ 0.6)) ∧
       (fallbackLowStress.guard st = true ↔ tv / mv ≤ 0.4))) ∧
    ((fallbackVeryHighStress.effect st).results = st.results ++
        [⟨"very_high", "fallback-score-very-high",
          "Based on total score > 80%"⟩] ∧
     (fallbackHighStress.effect st).results = st.results ++
        [⟨"high", "fallback-score-high", "Based on total score 60-80%"⟩] ∧
     (fallbackModerateStress.effect st).results = st.results ++
        [⟨"moderate", "fallback-score-moderate",
          "Based on total score 40-60%"⟩] ∧
     (fallbackLowStress.effect st).results = st.results ++
        [⟨"low", "fallback-score-low", "Based on total score <= 40%"⟩]) := by
  obtain ⟨sy, ts, ms, ov, res, mk, fi⟩ := st
  simp only [CState.totalScore] at hT
  simp only [CState.maxScore] at hM
  subst hT hM
  refine ⟨?_, ?_, ?_⟩
  · intro hOr
    cases ov with
    | none => rfl
    | some x =>
        simp [fallbackVeryHighStress, fallbackHighStress,
          fallbackModerateStress, fallbackLowStress, fallbackGuard] at hOr
  · intro hov
    simp only [CState.overall] at hov
    subst hov
    simp [fallbackVeryHighStress, fallbackHighStress,
      fallbackModerateStress, fallbackLowStress, fallbackGuard,
      fallbackVeryHighTest, fallbackHighTest, fallbackModerateTest,
      fallbackLowTest, Bool.and_eq_true, decide_eq_true_eq, and_comm]
  · cases ov <;>
      simp [fallbackVeryHighStress, fallbackHighStress,
        fallbackModerateStress, fallbackLowStress, addResult, setOverall]

/-- C5 witness at a concrete working memory. -/
theorem c5_fallback_policy_witness :
    ({ symptoms := [], totalScore := some 5, maxScore := some 10,
       overall := none, results := [], marks := [],
       fired := [] } : CState).totalScore = some 5 ∧
    ({ symptoms := [], totalScore := some 5, maxScore := some 10,
       overall := none, results := [], marks := [],
       fired := [] } : CState).maxScore = some 10 ∧
    (({ symptoms := [], totalScore := some 5, maxScore := some 10,
        overall := none, results := [], marks := [],
        fired := [] } : CState).overall = none) :=
  ⟨rfl, rfl, by
    have h := c5_fallback_policy
      { symptoms := [], totalScore := some 5, maxScore := some 10,
        overall := none, results := [], marks := [], fired := [] }
      5 10 rfl rfl
    exact (h.1 (by with_unfolding_all decide))⟩

/-- C6 counterexample — the overall-score rule classifies from the sum of
the raw `responses` values, not from the sum of the twenty defaulted
attribute fields: with twelve answers of 5 (raw sum 60, defaulted
attribute sum 68) the engine writes `"Moderate"` while the claimed
attribute-sum breakpoints give `"High"`. -/
theorem c6_overall_score_counterexample :
    (runEngine (mkStudent "s" [("anxiety_level", 5), ("self_esteem", 5),
      ("mental_health_history", 5), ("depression", 5), ("headache", 5),
      ("blood_pressure", 5), ("sleep_quality", 5), ("breathing_problem", 5),
      ("noise_level", 5), ("living_conditions", 5), ("safety", 5),
      ("basic_needs", 5)])).student.final_stress = "Moderate" ∧
    scoreStressLabel (specAttributeSum (mkStudent "s" [("anxiety_level", 5),
      ("self_esteem", 5), ("mental_health_history", 5), ("depression", 5),
      ("headache", 5), ("blood_pressure", 5), ("sleep_quality", 5),
      ("breathing_problem", 5), ("noise_level", 5), ("living_conditions", 5),
      ("safety", 5), ("basic_needs", 5)])) = "High" := by
  refine ⟨?_, ?_⟩ <;> decide

/-- C6 (amended) — Overall-score rule: for every Subject Record the
always-true, lowest-priority `"Overall Score"` rule fires exactly once per
run, and the classification written into `final_stress` is determined by
the sum of the raw response values with breakpoints `>80 → Very High`,
`>60 → High`, `>40 → Moderate`, else `Low`. -/
theorem c6_overall_score_amended (s : Student) :
    (runEngine s).triggered.count "Overall Score" = 1 ∧
    (runEngine s).student.final_stress
      = scoreStressLabel (sumValues s.responses) := by
  refine ⟨?_, runEngine_final_stress s⟩
  rw [(runEngine_spec s).1]
  cases h1 : critical_mental_health_rule s <;>
    cases h2 : severe_physical_rule s <;>
    cases h3 : bullying_rule s <;>
    cases h4 : academic_pressure_rule s <;>
    cases h5 : environment_rule s <;>
    cases h6 : social_rule s <;>
    simp [engineRules, criticalMentalStateRule, severePhysicalSymptomsRule,
      bullyingCrisisRule, academicPressureRule, environmentalStressRule,
      socialSupportIssueRule, overallScoreRule, trigSelect, score_rule,
      h1, h2, h3, h4, h5, h6, List.count_cons, List.count_nil]

/-- C7 — Priority firing order: for every Subject Record the fired-rule
trace is sorted by strictly descending rule priority (every
higher-priority matching rule precedes every lower-priority matching
rule), and in particular, when both match, `"Severe Physical Symptoms"`
(priority 90) appears in the trace before `"Academic Pressure"`
(priority 70). -/
theorem c7_priority_firing_order (s : Student) :
    (runEngine s).triggered.Pairwise
      (fun a b => rulePriorityOf b ≤ rulePriorityOf a) ∧
    (severe_physical_rule s = true → academic_pressure_rule s = true →
      (["Severe Physical Symptoms", "Academic Pressure"] : List String).Sublist
        (runEngine s).triggered) := by
  rw [(runEngine_spec s).1]
  cases h1 : critical_mental_health_rule s <;>
    cases h2 : severe_physical_rule s <;>
    cases h3 : bullying_rule s <;>
    cases h4 : academic_pressure_rule s <;>
    cases h5 : environment_rule s <;>
    cases h6 : social_rule s <;>
    simp [engineRules, criticalMentalStateRule, severePhysicalSymptomsRule,
      bullyingCrisisRule, academicPressureRule, environmentalStressRule,
      socialSupportIssueRule, overallScoreRule, trigSelect, score_rule,
      h1, h2, h3, h4, h5, h6] <;>
    decide

/-- C7 witness at the boundary scenario (headache, sleep quality and
breathing problems at 4; study load and career concerns at 4). -/
theorem c7_priority_firing_order_witness :
    severe_physical_rule (mkStudent "d" [("headache", 4),
      ("sleep_quality", 4), ("breathing_problem", 4), ("study_load", 4),
      ("future_career_concerns", 4)]) = true ∧
    academic_pressure_rule (mkStudent "d" [("headache", 4),
      ("sleep_quality", 4), ("breathing_problem", 4), ("study_load", 4),
      ("future_career_concerns", 4)]) = true ∧
    (["Severe Physical Symptoms", "Academic Pressure"] : List String).Sublist
      (runEngine (mkStudent "d" [("headache", 4), ("sleep_quality", 4),
        ("breathing_problem", 4), ("study_load", 4),
        ("future_career_concerns", 4)])).triggered :=
  ⟨by decide, by decide,
   (c7_priority_firing_order (mkStudent "d" [("headache", 4),
      ("sleep_quality", 4), ("breathing_problem", 4), ("study_load", 4),
      ("future_career_concerns", 4)])).2 (by decide) (by decide)⟩

/-- C8 counterexample — running the evaluator twice on the same (mutated)
Subject Record does not reproduce the same explanation structures: the
second run appends the bullying explanation to the `"Social Support"`
bucket again. -/
theorem c8_determinism_counterexample :
    (runEngine (runEngine (mkStudent "a"
        [("bullying", 4)])).student).student.section_reasons
      ≠ (runEngine (mkStudent "a" [("bullying", 4)])).student.section_reasons := by
  decide

/-- C8 (amended) — Single-shot evaluator determinism, up to the
accumulating explanation buckets: re-running the evaluator on the record
produced by a first run yields the same fired-rule trace, the same
collected result strings and the same final classification (conditions
read only the immutable attributes); only the section-bucketed explanation
lists differ, because the second run appends its explanations to the
lists the first run already filled. -/
theorem c8_determinism_amended (s : Student) :
    (runEngine (runEngine s).student).triggered = (runEngine s).triggered ∧
    (runEngine (runEngine s).student).results = (runEngine s).results ∧
    (runEngine (runEngine s).student).student.final_stress
      = (runEngine s).student.final_stress := by
  have hcore : studentCore (runEngine s).student = studentCore s :=
    (runEngine_spec s).2.2
  obtain ⟨ht1, hr1, -⟩ := runEngine_spec s
  obtain ⟨ht2, hr2, -⟩ := runEngine_spec (runEngine s).student
  refine ⟨?_, ?_, ?_⟩
  · rw [ht2, ht1]
    exact List.filterMap_congr (fun r hr => by
      unfold trigSelect
      rw [(goodRules_all r hr).2.1 _ _ hcore])
  · rw [hr2, hr1]
    exact List.filterMap_congr (fun r hr => by
      unfold outSelect
      rw [(goodRules_all r hr).2.1 _ _ hcore,
        (goodRules_all r hr).2.2 _ _ hcore])
  · rw [runEngine_final_stress, runEngine_final_stress,
      core_responses hcore]

/-- C9 — Engine totality: for every input mapping (the empty one
included) the CLIPS evaluation returns a well-formed result whose
classification is one of the stress labels, and on the empty mapping
(where `max_score = 0`) the total/max computation is safe and the
classification is `"Low"`. -/
theorem c9_engine_totality :
    (∀ responses : List (String × Int),
      (evaluateResponses responses).stress_level ∈
        (["Very_High", "High", "Moderate", "Low", "Very High"] : List String)) ∧
    (evaluateResponses []).stress_level = "Low" :=
  ⟨evaluateResponses_label_mem, by with_unfolding_all decide⟩

/-- C10 counterexample — `evaluate` does not guarantee equal
recommendation lists for equal symptom sets: the `rec_*` comprehension
follows the implementation-defined set iteration order, and two
admissible iteration orders of the same inferred fact set yield
differently ordered recommendation lists, hence unequal results. -/
theorem c10_input_set_invariance_counterexample :
    (["procrastination", "deadline_pressure"] : List String).toFinset
      = (["deadline_pressure", "procrastination",
          "procrastination"] : List String).toFinset ∧
    IsSetIterOrder (forward_chain ["procrastination", "deadline_pressure"])
      ["procrastination", "deadline_pressure", "stress_moderate",
       "rec_plan", "rec_exercise", "rec_peer"] ∧
    IsSetIterOrder (forward_chain ["deadline_pressure", "procrastination",
        "procrastination"])
      ["deadline_pressure", "procrastination", "stress_moderate",
       "rec_exercise", "rec_plan", "rec_peer"] ∧
    (evaluateIter ["procrastination", "deadline_pressure", "stress_moderate",
        "rec_plan", "rec_exercise", "rec_peer"]
        ["procrastination", "deadline_pressure"]).recommendations
      ≠ (evaluateIter ["deadline_pressure", "procrastination",
          "stress_moderate", "rec_exercise", "rec_plan", "rec_peer"]
          ["deadline_pressure", "procrastination",
           "procrastination"]).recommendations :=
  ⟨by decide, ⟨by decide, by decide⟩, ⟨by decide, by decide⟩, by decide⟩

/-- C10 (amended) — Input-set invariance up to the set iteration order:
for two symptom lists with the same underlying set (order and duplicates
ignored), `evaluate` returns the same stress level and the same sorted
inferred-facts list under every admissible iteration order of the
(equal) inferred fact sets; the recommendation lists contain the same
advice (they are permutations of each other), and are equal exactly when
the two calls iterate the fact set in the same order — which Python does
not guarantee across different insertion histories. -/
theorem c10_input_set_invariance_amended (l1 l2 o1 o2 : List String)
    (h : l1.toFinset = l2.toFinset)
    (h1 : IsSetIterOrder (forward_chain l1) o1)
    (h2 : IsSetIterOrder (forward_chain l2) o2) :
    (evaluateIter o1 l1).stress_level = (evaluateIter o2 l2).stress_level ∧
    (evaluateIter o1 l1).inferred_facts = (evaluateIter o2 l2).inferred_facts ∧
    (evaluateIter o1 l1).recommendations.Perm
      (evaluateIter o2 l2).recommendations ∧
    (o1 = o2 → evaluateIter o1 l1 = evaluateIter o2 l2) := by
  have hfc : forward_chain l1 = forward_chain l2 := by
    unfold forward_chain
    rw [h]
  have hperm : o1.Perm o2 := by
    refine (List.perm_ext_iff_of_nodup h1.1 h2.1).mpr fun a => ?_
    rw [← List.mem_toFinset, ← List.mem_toFinset, h1.2, h2.2, hfc]
  refine ⟨?_, ?_, ?_, ?_⟩
  · simp only [evaluateIter]
    rw [hfc]
  · simp only [evaluateIter]
    rw [hfc]
  · simp only [evaluateIter]
    exact (hperm.filter _).map _
  · intro ho
    subst ho
    simp only [evaluateIter]
    rw [hfc]

/-- C10 amended witness at a reordered, duplicated symptom list with a
shared iteration order. -/
theorem c10_input_set_invariance_amended_witness :
    (["irritability", "poor_sleep", "poor_sleep"] : List String).toFinset
      = (["poor_sleep", "irritability"] : List String).toFinset ∧
    IsSetIterOrder (forward_chain ["irritability", "poor_sleep", "poor_sleep"])
      ["poor_sleep", "irritability"] ∧
    IsSetIterOrder (forward_chain ["poor_sleep", "irritability"])
      ["poor_sleep", "irritability"] ∧
    evaluateIter ["poor_sleep", "irritability"]
        ["irritability", "poor_sleep", "poor_sleep"]
      = evaluateIter ["poor_sleep", "irritability"]
        ["poor_sleep", "irritability"] :=
  ⟨by decide, ⟨by decide, by decide⟩, ⟨by decide, by decide⟩,
   (c10_input_set_invariance_amended _ _ _ _ (by decide)
     ⟨by decide, by decide⟩ ⟨by decide, by decide⟩).2.2.2 rfl⟩

end Stress
